import Mathlib

/-!
Verification of the PyCompiler CLI (src/src/cli.py).

The CLI is a sequential orchestration of fallible calls: configuration
loading (`Config(config_path)`), the three build stages
(`create_temp_env`, `install_dependencies`, `build_with_nuitka`), and
`cleanup`.  Each of those calls is an external effect from the point of
view of `cli.py`; we embed it by an oracle giving the outcome of each
call — normal return, an ordinary `Exception`, or a `KeyboardInterrupt`
— and translate the control flow of `CompilerCLI.build_project`,
`CompilerCLI.show_info` and `CompilerCLI.run` into functions producing
the list of observable events (calls made, panels printed) together with
the way the process terminates.
-/

namespace PyCompiler

/-- Outcome of one fallible Python call: normal return, an ordinary
`Exception`, or a `KeyboardInterrupt` (which is not an `Exception`
subclass but is caught by the dedicated `except KeyboardInterrupt`
clause in `build_project`). -/
inductive Outcome where
  | ok
  | exn
  | interrupt
deriving DecidableEq

/-- Oracle fixing the outcome of each fallible call of one invocation:
`Config(config_path)` and the four `Builder` methods, in the order
`build_project` makes them. -/
structure BuildOracle where
  configLoad : Outcome
  createTempEnv : Outcome
  installDeps : Outcome
  buildNuitka : Outcome
  cleanup : Outcome
deriving DecidableEq

/-- Observable events of one CLI invocation: calls issued to the
`Builder` / `Config`, and the panels printed by `cli.py`. -/
inductive Event where
  | printBanner
  | printHelp
  | printConfigNotFound
  | loadConfig
  | printBuildInfo
  | createTempEnv
  | installDeps
  | buildNuitka
  | cleanupStage
  | printSuccess
  | printInterrupted
  | printBuildError
  | printInfoTable
  | printInfoLoadError
deriving DecidableEq

/-- How control leaves the CLI: a normal return from `run` (the process
then exits with status 0), an explicit `sys.exit(code)`, or an uncaught
`KeyboardInterrupt` propagating out of `main` (Python terminates the
process with a non-zero status, 130). -/
inductive RunResult where
  | ret
  | exit (code : Nat)
  | uncaughtInterrupt
deriving DecidableEq

/-- Exit status of the process for a given `RunResult`. -/
def processExit : RunResult → Nat
  | .ret => 0
  | .exit c => c
  | .uncaughtInterrupt => 130

/-- One step of the `try` body of `build_project`: the call `ev` is
issued; on an ordinary exception the `except Exception` handler prints
the error panel and calls `sys.exit(1)`; on a `KeyboardInterrupt` the
`except KeyboardInterrupt` handler prints the interrupt message and
calls `sys.exit(1)`; on normal return the rest of the body (`k`) runs. -/
def tryStep (pre : List Event) (ev : Event) (oc : Outcome)
    (k : List Event → List Event × RunResult) : List Event × RunResult :=
  match oc with
  | .ok => k (pre ++ [ev])
  | .exn => (pre ++ [ev, .printBuildError], .exit 1)
  | .interrupt => (pre ++ [ev, .printInterrupted], .exit 1)

/-- `CompilerCLI.build_project`: inside one `try`, load the config,
print the build-info panel, then call `create_temp_env`,
`install_dependencies`, `build_with_nuitka`, `cleanup` in order and
print the success panel.  `except KeyboardInterrupt` prints the
interrupt message and exits 1; `except Exception` prints the error
panel and exits 1. -/
def build_project (o : BuildOracle) : List Event × RunResult :=
  tryStep [] .loadConfig o.configLoad fun t1 =>
  tryStep (t1 ++ [.printBuildInfo]) .createTempEnv o.createTempEnv fun t2 =>
  tryStep t2 .installDeps o.installDeps fun t3 =>
  tryStep t3 .buildNuitka o.buildNuitka fun t4 =>
  tryStep t4 .cleanupStage o.cleanup fun t5 =>
  (t5 ++ [.printSuccess], .ret)

/-- `CompilerCLI.show_info`: load the config and print the information
table; `except Exception` prints the load-error panel and returns
normally (no `sys.exit`).  A `KeyboardInterrupt` here is not caught and
propagates out of `run`. -/
def show_info (o : BuildOracle) : List Event × RunResult :=
  match o.configLoad with
  | .ok => ([.loadConfig, .printInfoTable], .ret)
  | .exn => ([.loadConfig, .printInfoLoadError], .ret)
  | .interrupt => ([.loadConfig], .uncaughtInterrupt)

/-- Parsed command-line arguments: `--config` (default
`config.yaml`), `--info`, `--show-help`. -/
structure Args where
  config : String
  info : Bool
  show_help : Bool

/-- The arguments produced by argparse when the CLI is invoked with no
arguments. -/
def defaultArgs : Args := ⟨"config.yaml", false, false⟩

/-- `CompilerCLI.run`: if `--show-help`, print the help (which itself
prints the banner) and return; otherwise print the banner, exit 1 with
an error panel when the config path does not exist, and dispatch to
`show_info` or `build_project`. -/
def run (args : Args) (pathExists : String → Bool) (o : BuildOracle) :
    List Event × RunResult :=
  if args.show_help = true then
    ([.printBanner, .printHelp], .ret)
  else if pathExists args.config = false then
    ([.printBanner, .printConfigNotFound], .exit 1)
  else if args.info = true then
    (.printBanner :: (show_info o).1, (show_info o).2)
  else
    (.printBanner :: (build_project o).1, (build_project o).2)

/-- Whether an event is one of the four build-stage calls. -/
def isStageEvent : Event → Bool
  | .createTempEnv => true
  | .installDeps => true
  | .buildNuitka => true
  | .cleanupStage => true
  | _ => false

/-- The canonical order of the four build-stage calls. -/
def stageOrder : List Event :=
  [.createTempEnv, .installDeps, .buildNuitka, .cleanupStage]

/-- The contents of a configuration file, as relevant to the loader:
each recognized top-level key is present with a value or absent. -/
structure ConfigFile where
  project_name : Option String
  main_file : Option String
  output_name : Option String
  icon_file : Option String
  project_libs : List String
  include_packages : List String
deriving DecidableEq

/-- A fully populated project configuration. -/
structure ProjectConfig where
  project_name : String
  main_file : String
  output_name : String
  icon_file : Option String
  project_libs : List String
  include_packages : List String
deriving DecidableEq

/-- Errors of the configuration loader. -/
inductive ConfigError where
  | ConfigNotFound
  | ConfigInvalid
deriving DecidableEq

/-- Modelled from the spec: the Configuration Loader (`Config` in
`src/builder.py`) is not part of the repository snapshot — only its
caller `src/cli.py` is.  Spec §4.1: `load(path)` fails with
`ConfigNotFound` when the path does not exist, fails with
`ConfigInvalid` when a required field (`project_name`, `main_file`,
`output_name`) is missing, and on success returns a fully populated
`ProjectConfig` whose optional fields default to empty/absent. -/
def load (pathOnDisk : Bool) (f : ConfigFile) :
    Except ConfigError ProjectConfig :=
  if pathOnDisk = false then .error .ConfigNotFound
  else
    match f.project_name, f.main_file, f.output_name with
    | some pn, some mf, some outn =>
        .ok ⟨pn, mf, outn, f.icon_file, f.project_libs, f.include_packages⟩
    | _, _, _ => .error .ConfigInvalid

/-- C1 counterexample: a build invocation in which `build_with_nuitka`
raises an ordinary exception terminates via `sys.exit(1)` with
`cleanup` never invoked — refuting the claim that `cleanup()` runs
exactly once on every exit path. -/
theorem C1_counterexample :
    (build_project ⟨.ok, .ok, .ok, .exn, .ok⟩).2 = .exit 1 ∧
    (build_project ⟨.ok, .ok, .ok, .exn, .ok⟩).1.count Event.cleanupStage = 0 := by
  decide

/-- C1 (amended): `cleanup()` is invoked exactly once when config
loading, `create_temp_env`, `install_dependencies` and
`build_with_nuitka` all return normally, and is not invoked at all when
any of them raises: the single `try/except` in `build_project` exits on
the first failure without ever reaching the cleanup call. -/
theorem C1_cleanup_only_after_success (o : BuildOracle) :
    (build_project o).1.count Event.cleanupStage =
      (if o.configLoad = .ok ∧ o.createTempEnv = .ok ∧ o.installDeps = .ok ∧
          o.buildNuitka = .ok then 1 else 0) := by
  rcases o with ⟨a, b, c, d, e⟩
  cases a <;> cases b <;> cases c <;> cases d <;> cases e <;> decide

/-- C2: when `install_dependencies` raises, `build_with_nuitka` is
never invoked, and in every invocation the stage calls that do occur
form a prefix of the canonical order `create_temp_env`,
`install_dependencies`, `build_with_nuitka`, `cleanup`. -/
theorem C2_install_failure_skips_compile (o : BuildOracle)
    (h : o.installDeps ≠ Outcome.ok) :
    Event.buildNuitka ∉ (build_project o).1 ∧
    (build_project o).1.filter isStageEvent <+: stageOrder := by
  rcases o with ⟨a, b, c, d, e⟩
  cases a <;> cases b <;> cases c <;> cases d <;> cases e <;>
    first
      | exact absurd rfl h
      | decide

/-- C2 witness: concrete run in which `install_dependencies` raises an
ordinary exception. -/
theorem C2_witness :
    Event.buildNuitka ∉ (build_project ⟨.ok, .ok, .exn, .ok, .ok⟩).1 ∧
    (build_project ⟨.ok, .ok, .exn, .ok, .ok⟩).1.filter isStageEvent <+: stageOrder :=
  C2_install_failure_skips_compile ⟨.ok, .ok, .exn, .ok, .ok⟩ (by decide)

/-- C3: without `--show-help`, when the config path does not exist the
CLI prints the banner and the config-not-found panel and exits with
status 1; no `Config` load and no build stage is attempted. -/
theorem C3_config_not_found (args : Args) (pathExists : String → Bool)
    (o : BuildOracle) (h1 : args.show_help = false)
    (h2 : pathExists args.config = false) :
    run args pathExists o = ([.printBanner, .printConfigNotFound], .exit 1) ∧
    Event.loadConfig ∉ (run args pathExists o).1 ∧
    (run args pathExists o).1.filter isStageEvent = [] := by
  have h : run args pathExists o =
      ([.printBanner, .printConfigNotFound], .exit 1) := by
    simp [run, h1, h2]
  refine ⟨h, ?_, ?_⟩ <;> rw [h] <;> decide

/-- C3 witness: concrete invocation without `--show-help` on a missing
config path. -/
theorem C3_witness :
    run ⟨"config.yaml", false, false⟩ (fun _ => false) ⟨.ok, .ok, .ok, .ok, .ok⟩ =
      ([.printBanner, .printConfigNotFound], .exit 1) ∧
    Event.loadConfig ∉
      (run ⟨"config.yaml", false, false⟩ (fun _ => false) ⟨.ok, .ok, .ok, .ok, .ok⟩).1 ∧
    (run ⟨"config.yaml", false, false⟩ (fun _ => false) ⟨.ok, .ok, .ok, .ok, .ok⟩).1.filter
      isStageEvent = [] :=
  C3_config_not_found ⟨"config.yaml", false, false⟩ (fun _ => false)
    ⟨.ok, .ok, .ok, .ok, .ok⟩ rfl rfl

/-- C4: invoked with no arguments, the CLI uses the default config path
`config.yaml` and the process exits with status 0 exactly when the
config exists, loads, and every pipeline stage succeeds; it exits with
status 1 on any failure or interrupt. -/
theorem C4_default_invocation (pathExists : String → Bool) (o : BuildOracle) :
    processExit (run defaultArgs pathExists o).2 =
      (if pathExists "config.yaml" = true ∧ o.configLoad = .ok ∧
          o.createTempEnv = .ok ∧ o.installDeps = .ok ∧ o.buildNuitka = .ok ∧
          o.cleanup = .ok then 0 else 1) := by
  cases h : pathExists "config.yaml"
  · simp [run, defaultArgs, h, processExit]
  · rcases o with ⟨a, b, c, d, e⟩
    cases a <;> cases b <;> cases c <;> cases d <;> cases e <;>
      simp [run, defaultArgs, h, build_project, tryStep, processExit]

/-- C5: with `--info` on an existing config path, no build stage is
ever run; when the config loads the information table is printed, and
when loading raises an ordinary exception the CLI prints the error and
still terminates with exit status 0. -/
theorem C5_info_mode (args : Args) (pathExists : String → Bool)
    (o : BuildOracle) (h1 : args.show_help = false) (h2 : args.info = true)
    (h3 : pathExists args.config = true) :
    (run args pathExists o).1.filter isStageEvent = [] ∧
    (o.configLoad = .ok → Event.printInfoTable ∈ (run args pathExists o).1) ∧
    (o.configLoad = .exn →
      processExit (run args pathExists o).2 = 0 ∧
      Event.printInfoLoadError ∈ (run args pathExists o).1) := by
  have h : run args pathExists o =
      (.printBanner :: (show_info o).1, (show_info o).2) := by
    simp [run, h1, h2, h3]
  rw [h]
  cases hc : o.configLoad <;> simp [show_info, hc, processExit] <;> decide

/-- C5 witness: concrete `--info` invocation whose config load raises
an ordinary exception. -/
theorem C5_witness :
    (run ⟨"config.yaml", true, false⟩ (fun _ => true) ⟨.exn, .ok, .ok, .ok, .ok⟩).1.filter
      isStageEvent = [] ∧
    ((⟨.exn, .ok, .ok, .ok, .ok⟩ : BuildOracle).configLoad = .ok →
      Event.printInfoTable ∈
        (run ⟨"config.yaml", true, false⟩ (fun _ => true) ⟨.exn, .ok, .ok, .ok, .ok⟩).1) ∧
    ((⟨.exn, .ok, .ok, .ok, .ok⟩ : BuildOracle).configLoad = .exn →
      processExit
        (run ⟨"config.yaml", true, false⟩ (fun _ => true) ⟨.exn, .ok, .ok, .ok, .ok⟩).2 = 0 ∧
      Event.printInfoLoadError ∈
        (run ⟨"config.yaml", true, false⟩ (fun _ => true) ⟨.exn, .ok, .ok, .ok, .ok⟩).1) :=
  C5_info_mode ⟨"config.yaml", true, false⟩ (fun _ => true)
    ⟨.exn, .ok, .ok, .ok, .ok⟩ rfl rfl rfl

/-- C6: a `KeyboardInterrupt` raised in whichever stage is the first to
fail is caught by the `except KeyboardInterrupt` clause at the top
level of `build_project`: the interrupt message is printed, the generic
build-failed panel is not, and the process exits with status 1. -/
theorem C6_interrupt_reported (o : BuildOracle)
    (h : (o.configLoad = .ok ∧ o.createTempEnv = .interrupt) ∨
         (o.configLoad = .ok ∧ o.createTempEnv = .ok ∧
           o.installDeps = .interrupt) ∨
         (o.configLoad = .ok ∧ o.createTempEnv = .ok ∧ o.installDeps = .ok ∧
           o.buildNuitka = .interrupt) ∨
         (o.configLoad = .ok ∧ o.createTempEnv = .ok ∧ o.installDeps = .ok ∧
           o.buildNuitka = .ok ∧ o.cleanup = .interrupt)) :
    (build_project o).2 = .exit 1 ∧
    Event.printInterrupted ∈ (build_project o).1 ∧
    Event.printBuildError ∉ (build_project o).1 := by
  rcases o with ⟨a, b, c, d, e⟩
  revert h
  cases a <;> cases b <;> cases c <;> cases d <;> cases e <;> decide

/-- C6 witness: concrete run interrupted during `install_dependencies`. -/
theorem C6_witness :
    (build_project ⟨.ok, .ok, .interrupt, .ok, .ok⟩).2 = .exit 1 ∧
    Event.printInterrupted ∈ (build_project ⟨.ok, .ok, .interrupt, .ok, .ok⟩).1 ∧
    Event.printBuildError ∉ (build_project ⟨.ok, .ok, .interrupt, .ok, .ok⟩).1 :=
  C6_interrupt_reported ⟨.ok, .ok, .interrupt, .ok, .ok⟩ (by decide)

/-- C7: with `--show-help` the CLI prints the help panel (which prints
the banner first) and returns, so the process exits with status 0; the
result is a fixed trace independent of the filesystem and of every
stage outcome, so no config-existence check, no `Config` load and no
build stage happens. -/
theorem C7_show_help (args : Args) (pathExists : String → Bool)
    (o : BuildOracle) (h : args.show_help = true) :
    run args pathExists o = ([.printBanner, .printHelp], .ret) ∧
    processExit (run args pathExists o).2 = 0 ∧
    Event.loadConfig ∉ (run args pathExists o).1 ∧
    (run args pathExists o).1.filter isStageEvent = [] := by
  have heq : run args pathExists o = ([.printBanner, .printHelp], .ret) := by
    simp [run, h]
  refine ⟨heq, ?_, ?_, ?_⟩ <;> rw [heq] <;> decide

/-- C7 witness: concrete `--show-help` invocation. -/
theorem C7_witness :
    run ⟨"config.yaml", false, true⟩ (fun _ => true) ⟨.ok, .ok, .ok, .ok, .ok⟩ =
      ([.printBanner, .printHelp], .ret) ∧
    processExit
      (run ⟨"config.yaml", false, true⟩ (fun _ => true) ⟨.ok, .ok, .ok, .ok, .ok⟩).2 = 0 ∧
    Event.loadConfig ∉
      (run ⟨"config.yaml", false, true⟩ (fun _ => true) ⟨.ok, .ok, .ok, .ok, .ok⟩).1 ∧
    (run ⟨"config.yaml", false, true⟩ (fun _ => true) ⟨.ok, .ok, .ok, .ok, .ok⟩).1.filter
      isStageEvent = [] :=
  C7_show_help ⟨"config.yaml", false, true⟩ (fun _ => true)
    ⟨.ok, .ok, .ok, .ok, .ok⟩ rfl

/-- C8: for every configuration file that exists on disk but is missing
`project_name`, `main_file` or `output_name`, `load` fails with
`ConfigInvalid` and never returns any `ProjectConfig`. -/
theorem C8_missing_required_field (f : ConfigFile)
    (h : f.project_name = none ∨ f.main_file = none ∨ f.output_name = none) :
    load true f = .error .ConfigInvalid ∧
    ∀ pc : ProjectConfig, load true f ≠ .ok pc := by
  rcases f with ⟨pn, mf, outn, ic, libs, pkgs⟩
  have heq : load true ⟨pn, mf, outn, ic, libs, pkgs⟩ =
      .error .ConfigInvalid := by
    rcases h with h | h | h <;> simp_all [load]
  exact ⟨heq, fun pc hpc => by rw [heq] at hpc; exact Except.noConfusion hpc⟩

/-- C8 witness: concrete existing config file missing `main_file`. -/
theorem C8_witness :
    load true ⟨some "demo", none, some "app", none, [], []⟩ =
      .error .ConfigInvalid ∧
    ∀ pc : ProjectConfig,
      load true ⟨some "demo", none, some "app", none, [], []⟩ ≠ .ok pc :=
  C8_missing_required_field ⟨some "demo", none, some "app", none, [], []⟩
    (Or.inr (Or.inl rfl))

/-- C9: `--show-help` takes precedence over every other argument: even
with `--info` set and a missing config path, the CLI prints the help
and returns with exit status 0, the config-not-found panel is never
printed, and the result does not depend on the filesystem at all. -/
theorem C9_show_help_precedence (args : Args) (pathExists : String → Bool)
    (o : BuildOracle) (h1 : args.show_help = true) (h2 : args.info = true)
    (h3 : pathExists args.config = false) :
    run args pathExists o = ([.printBanner, .printHelp], .ret) ∧
    processExit (run args pathExists o).2 = 0 ∧
    Event.printConfigNotFound ∉ (run args pathExists o).1 ∧
    ∀ pE : String → Bool, run args pE o = run args pathExists o := by
  have heq : run args pathExists o = ([.printBanner, .printHelp], .ret) := by
    simp [run, h1]
  refine ⟨heq, ?_, ?_, ?_⟩
  · rw [heq]; decide
  · rw [heq]; decide
  · intro pE; rw [heq]; simp [run, h1]

/-- C9 witness: concrete invocation with both `--show-help` and
`--info` on a missing config path. -/
theorem C9_witness :
    run ⟨"missing.yaml", true, true⟩ (fun _ => false) ⟨.ok, .ok, .ok, .ok, .ok⟩ =
      ([.printBanner, .printHelp], .ret) ∧
    processExit
      (run ⟨"missing.yaml", true, true⟩ (fun _ => false) ⟨.ok, .ok, .ok, .ok, .ok⟩).2 = 0 ∧
    Event.printConfigNotFound ∉
      (run ⟨"missing.yaml", true, true⟩ (fun _ => false) ⟨.ok, .ok, .ok, .ok, .ok⟩).1 ∧
    ∀ pE : String → Bool,
      run ⟨"missing.yaml", true, true⟩ pE ⟨.ok, .ok, .ok, .ok, .ok⟩ =
        run ⟨"missing.yaml", true, true⟩ (fun _ => false) ⟨.ok, .ok, .ok, .ok, .ok⟩ :=
  C9_show_help_precedence ⟨"missing.yaml", true, true⟩ (fun _ => false)
    ⟨.ok, .ok, .ok, .ok, .ok⟩ rfl rfl rfl

/-- C10 counterexample: on the ordinary-exception path cleanup is also
skipped — `create_temp_env` raising an ordinary exception leads to
`sys.exit(1)` with no `cleanup` call, refuting the claim's contrast
with the interrupt path. -/
theorem C10_counterexample :
    (build_project ⟨.ok, .exn, .ok, .ok, .ok⟩).2 = .exit 1 ∧
    Event.cleanupStage ∉ (build_project ⟨.ok, .exn, .ok, .ok, .ok⟩).1 ∧
    Event.printBuildError ∈ (build_project ⟨.ok, .exn, .ok, .ok, .ok⟩).1 := by
  decide

/-- C10 (amended): if `create_temp_env`, `install_dependencies` or
`build_with_nuitka` fails — by `KeyboardInterrupt` or by ordinary
exception alike — the CLI exits with status 1 without invoking
`cleanup`; the cleanup stage is skipped on both failure paths. -/
theorem C10_failure_skips_cleanup (o : BuildOracle)
    (h : o.createTempEnv ≠ Outcome.ok ∨ o.installDeps ≠ Outcome.ok ∨
         o.buildNuitka ≠ Outcome.ok) :
    (build_project o).2 = .exit 1 ∧
    Event.cleanupStage ∉ (build_project o).1 := by
  rcases o with ⟨a, b, c, d, e⟩
  revert h
  cases a <;> cases b <;> cases c <;> cases d <;> cases e <;> decide

/-- C10 witness: concrete run interrupted during `build_with_nuitka`. -/
theorem C10_witness :
    (build_project ⟨.ok, .ok, .ok, .interrupt, .ok⟩).2 = .exit 1 ∧
    Event.cleanupStage ∉ (build_project ⟨.ok, .ok, .ok, .interrupt, .ok⟩).1 :=
  C10_failure_skips_cleanup ⟨.ok, .ok, .ok, .interrupt, .ok⟩ (by decide)

end PyCompiler
